import Mathlib

/-!
Verification development for the opendota-mcp server.

This file gives a shallow embedding of the three core components of the
repository — the natural-language query dispatcher (`parseNaturalQuery` in
src/index.ts), the OpenDota API client's request routine
(`OpenDotaClient.makeRequest` in src/opendota-client.ts), and the tool
request router (the `CallToolRequestSchema` handler in src/index.ts,
together with the error classes of src/logger.ts) — and proves the
documented behavioural properties about them.

Conventions of the embedding:
* Strings are represented as `List Char`; `String` literals are converted
  with `.data`.
* The five JavaScript regular expressions of the dispatcher are embedded as
  terms of a small regex type `RE` together with a backtracking matcher
  (`reMatch`/`execRE`) that mirrors ECMAScript `RegExp.prototype.exec`
  semantics for the constructs those five patterns use: leftmost match,
  left-biased alternation, greedy `+`/`?` with backtracking, capturing
  groups, and the `i` flag (modelled by matching either the literal letter
  or its upper-case form).
* JavaScript in-place mutation of the `params` object in `makeRequest` is
  modelled by explicit state passing: the function returns the object as it
  is after the call, which by reference semantics is the caller's object.
* `parseInt` on the all-digit capture groups is modelled as exact decimal
  conversion (`digitsToNat`); floating-point loss of precision for digit
  sequences beyond 2^53 is outside the model.
* Asynchronous upstream HTTP calls are modelled by an oracle
  `Upstream : ClientCall → Except MCPErr JVal` giving each call's outcome.
-/

/-! ### A small regex language and ECMAScript-style backtracking matcher -/

/-- Capture groups recorded during a match: group index paired with the
captured substring. -/
abbrev Groups := List (Nat × List Char)

/-- Regex abstract syntax: exactly the constructs used by the five patterns
in `parseNaturalQuery` (character classes, concatenation, alternation,
greedy `?` on a subexpression, greedy `+` on a character class, and
numbered capture groups). -/
inductive RE where
  | eps
  | cls (p : Char → Bool)
  | seq (a b : RE)
  | alt (a b : RE)
  | opt (r : RE)
  | plus (p : Char → Bool)
  | grp (i : Nat) (r : RE)

/-- First-success choice on `Option Groups` (backtracking preference). -/
def oOr (a b : Option Groups) : Option Groups :=
  match a with
  | some x => some x
  | none => b

/-- Greedy continuation loop for `p+` after at least one character has been
consumed: prefer consuming another `p`-character, fall back to stopping
here, as an ECMAScript greedy quantifier does. -/
def matchPlus (p : Char → Bool) (k : List Char → Groups → Option Groups) :
    List Char → Groups → Option Groups
  | [], g => oOr none (k [] g)
  | c :: cs, g => oOr (if p c then matchPlus p k cs g else none) (k (c :: cs) g)

/-- Backtracking matcher in continuation-passing style: `reMatch r cs g k`
tries to match `r` at the start of `cs` with groups-so-far `g`, passing the
remaining input and updated groups to `k`; alternatives are tried in the
preference order of ECMAScript regexes. -/
def reMatch : RE → List Char → Groups → (List Char → Groups → Option Groups) → Option Groups
  | .eps, cs, g, k => k cs g
  | .cls p, cs, g, k =>
    match cs with
    | [] => none
    | c :: cs' => if p c then k cs' g else none
  | .seq a b, cs, g, k => reMatch a cs g (fun cs' g' => reMatch b cs' g' k)
  | .alt a b, cs, g, k => oOr (reMatch a cs g k) (reMatch b cs g k)
  | .opt r, cs, g, k => oOr (reMatch r cs g k) (k cs g)
  | .plus p, cs, g, k =>
    match cs with
    | [] => none
    | c :: cs' => if p c then matchPlus p k cs' g else none
  | .grp i r, cs, g, k =>
    reMatch r cs g (fun cs' g' => k cs' ((i, cs.take (cs.length - cs'.length)) :: g'))

/-- `RegExp.prototype.exec` for a non-anchored, non-global regex: try the
match at every start position from the left, returning the groups of the
first (leftmost) successful match. -/
def execRE (r : RE) : List Char → Option Groups
  | [] =>
    match reMatch r [] [] (fun _ g => some g) with
    | some g => some g
    | none => none
  | c :: cs =>
    match reMatch r (c :: cs) [] (fun _ g => some g) with
    | some g => some g
    | none => execRE r cs

/-- ECMAScript `\s`: the WhiteSpace and LineTerminator code points. -/
def jsWs (c : Char) : Bool :=
  c.toNat = 32 || c.toNat = 9 || c.toNat = 10 || c.toNat = 11 || c.toNat = 12 ||
  c.toNat = 13 || c.toNat = 160 || c.toNat = 5760 ||
  (8192 ≤ c.toNat && c.toNat ≤ 8202) || c.toNat = 8232 || c.toNat = 8233 ||
  c.toNat = 8239 || c.toNat = 8287 || c.toNat = 12288 || c.toNat = 65279

/-- ECMAScript `\d`: the ASCII decimal digits. -/
def jsDigit (c : Char) : Bool := 48 ≤ c.toNat && c.toNat ≤ 57

/-- The quote character class `["']` of `playerNamePattern` (the source
writes the double quote twice; the set is a double or single quote). The
single quote is written via its code point 39. -/
def quoteCh (c : Char) : Bool := c == '"' || c.toNat = 39

/-- A case-insensitive literal character, as under the regex `i` flag:
matches the lower-case letter itself or its upper-case form. -/
def ciCh (c : Char) : RE := .cls (fun x => x == c || x == c.toUpper)

/-- A case-insensitive literal string: concatenation of `ciCh` classes. -/
def istr : List Char → RE
  | [] => .eps
  | c :: cs => .seq (ciCh c) (istr cs)

/-- `\s+`. -/
def wsPlus : RE := .plus jsWs

/-- `/(?:match|game)\s+(?:id\s+)?(\d+)/i` — src/index.ts `matchIdPattern`. -/
def matchIdPattern : RE :=
  .seq (.alt (istr ("match".data)) (istr ("game".data)))
    (.seq wsPlus
      (.seq (.opt (.seq (istr ("id".data)) wsPlus))
        (.grp 1 (.plus jsDigit))))

/-- `/(?:player|user)\s+(?:named\s+)?["']([^"']+)["']/i` — src/index.ts
`playerNamePattern`. -/
def playerNamePattern : RE :=
  .seq (.alt (istr ("player".data)) (istr ("user".data)))
    (.seq wsPlus
      (.seq (.opt (.seq (istr ("named".data)) wsPlus))
        (.seq (.cls quoteCh)
          (.seq (.grp 1 (.plus (fun c => !quoteCh c)))
            (.cls quoteCh)))))

/-- `/(?:player|user)\s+(?:id\s+)?(\d+)/i` — src/index.ts `playerIdPattern`. -/
def playerIdPattern : RE :=
  .seq (.alt (istr ("player".data)) (istr ("user".data)))
    (.seq wsPlus
      (.seq (.opt (.seq (istr ("id".data)) wsPlus))
        (.grp 1 (.plus jsDigit))))

/-- `/recent\s+matches?\s+(?:for\s+)?(?:player\s+)?(?:id\s+)?(\d+)/i` —
src/index.ts `recentMatchesPattern`. -/
def recentMatchesPattern : RE :=
  .seq (istr ("recent".data))
    (.seq wsPlus
      (.seq (istr ("matche".data))
        (.seq (.opt (ciCh 's'))
          (.seq wsPlus
            (.seq (.opt (.seq (istr ("for".data)) wsPlus))
              (.seq (.opt (.seq (istr ("player".data)) wsPlus))
                (.seq (.opt (.seq (istr ("id".data)) wsPlus))
                  (.grp 1 (.plus jsDigit)))))))))

/-- `/(?:heroes?\s+(?:for\s+)?(?:player\s+)?(?:id\s+)?(\d+)|player\s+(\d+)\s+heroes?)/i`
— src/index.ts `playerHeroesPattern`. -/
def playerHeroesPattern : RE :=
  .alt
    (.seq (istr ("heroe".data))
      (.seq (.opt (ciCh 's'))
        (.seq wsPlus
          (.seq (.opt (.seq (istr ("for".data)) wsPlus))
            (.seq (.opt (.seq (istr ("player".data)) wsPlus))
              (.seq (.opt (.seq (istr ("id".data)) wsPlus))
                (.grp 1 (.plus jsDigit))))))))
    (.seq (istr ("player".data))
      (.seq wsPlus
        (.seq (.grp 2 (.plus jsDigit))
          (.seq wsPlus
            (.seq (istr ("heroe".data)) (.opt (ciCh 's')))))))

/-- Look up a capture group by index (`match[i]`); `none` models a group
that did not participate in the match (`undefined`). -/
def glookup (g : Groups) (i : Nat) : Option (List Char) :=
  (g.find? (fun p => p.1 == i)).map (fun p => p.2)

/-- `parseInt` on an all-digit capture: exact base-10 value. -/
def digitsToNat (s : List Char) : Nat :=
  s.foldl (fun n c => n * 10 + (c.toNat - 48)) 0

/-! ### The dispatcher `parseNaturalQuery` -/

/-- The `params` payload of a dispatch result: one of the three shapes the
source constructs (`{match_id}`, `{account_id}`, `{query}`). -/
inductive QueryParams where
  | matchId (m : Nat)
  | accountId (a : Nat)
  | queryStr (q : List Char)
deriving DecidableEq

/-- The `{type, params}` object returned by `parseNaturalQuery`; `type` is
a string in the source and is kept as one here. -/
structure ParsedQuery where
  type : String
  params : QueryParams
deriving DecidableEq

/-- JavaScript `a || b` on two possibly-undefined strings: `a` when it is
defined and non-empty (truthy), otherwise `b`. Used for
`match[1] || match[2]` in the heroes branch. -/
def jsOrStr (a b : Option (List Char)) : Option (List Char) :=
  match a with
  | some s => if s.isEmpty then b else some s
  | none => b

/-- src/index.ts `parseNaturalQuery`: the five patterns are tried in the
fixed source order (match id, quoted player name, bare player id, recent
matches, player heroes), and the first match wins; otherwise the fallback
`search` result carries the whole input. The `.getD []` totalizes the
group lookup; in every branch the consulted group is present whenever the
pattern matched. -/
def parseNaturalQuery (query : List Char) : ParsedQuery :=
  match execRE matchIdPattern query with
  | some g => ⟨"get_match", .matchId (digitsToNat ((glookup g 1).getD []))⟩
  | none =>
  match execRE playerNamePattern query with
  | some g => ⟨"search_players", .queryStr ((glookup g 1).getD [])⟩
  | none =>
  match execRE playerIdPattern query with
  | some g => ⟨"get_player", .accountId (digitsToNat ((glookup g 1).getD []))⟩
  | none =>
  match execRE recentMatchesPattern query with
  | some g => ⟨"get_player_recent_matches", .accountId (digitsToNat ((glookup g 1).getD []))⟩
  | none =>
  match execRE playerHeroesPattern query with
  | some g =>
    ⟨"get_player_heroes", .accountId (digitsToNat ((jsOrStr (glookup g 1) (glookup g 2)).getD []))⟩
  | none => ⟨"search", .queryStr query⟩

/-! ### JSON values, error taxonomy (src/logger.ts) and the API client
(src/opendota-client.ts) -/

/-- JSON-like values for upstream request/response bodies. Objects are
represented as a built-in cons list (`objNil`/`objCons`) so that equality
stays decidable; arrays and numeric subtleties of JSON are not needed by
any property proved here and upstream bodies are treated as opaque
passthrough data, as the source does. -/
inductive JVal where
  | num (n : Int)
  | str (s : List Char)
  | boolean (b : Bool)
  | null
  | objNil
  | objCons (key : String) (v : JVal) (rest : JVal)
deriving DecidableEq

/-- An axios HTTP response attached to an error: its status code and body. -/
structure AxiosResp where
  status : Nat
  data : JVal
deriving DecidableEq

/-- An axios request failure as observed in `makeRequest`'s catch block:
optional transport error code, error message, and the upstream response
when one was received. -/
structure AxiosErr where
  code : Option String
  message : List Char
  response : Option AxiosResp
deriving DecidableEq

/-- The `details` payloads attached to `MCPError` instances at each
construction site in the source. -/
inductive ErrDetails where
  | zodIssues (issues : List String)
  | apiDetail (code : Option String) (resp : Option JVal) (orig : AxiosErr)
  | timeoutDetail (orig : AxiosErr)
  | wrappedJs (msg : List Char)
  | wrappedOther (srep : List Char)
deriving DecidableEq

/-- The `MCPError` class of src/logger.ts and its three subclasses,
flattened to their observable fields (`name`, `message`, `code`,
`statusCode`, `details`). -/
structure MCPErr where
  name : String
  message : List Char
  code : String
  statusCode : Nat
  details : Option ErrDetails
deriving DecidableEq

/-- `new MCPError(message, code, statusCode, details)`. -/
def mkMCPErr (message : List Char) (code : String) (statusCode : Nat)
    (details : Option ErrDetails) : MCPErr :=
  ⟨"MCPError", message, code, statusCode, details⟩

/-- `new ValidationError(message, details)`: code `VALIDATION_ERROR`,
HTTP-equivalent status 400. -/
def mkValidationErr (message : List Char) (details : Option ErrDetails) : MCPErr :=
  ⟨"ValidationError", message, "VALIDATION_ERROR", 400, details⟩

/-- `new APIError(message, statusCode, details)`: code `API_ERROR`. -/
def mkAPIErr (message : List Char) (statusCode : Nat) (details : Option ErrDetails) : MCPErr :=
  ⟨"APIError", message, "API_ERROR", statusCode, details⟩

/-- `new TimeoutError(message, details)`: code `TIMEOUT_ERROR`, status 408. -/
def mkTimeoutErr (message : List Char) (details : Option ErrDetails) : MCPErr :=
  ⟨"TimeoutError", message, "TIMEOUT_ERROR", 408, details⟩

/-- Whether `pat` occurs at the start of `s`. -/
def subAt : List Char → List Char → Bool
  | [], _ => true
  | _ :: _, [] => false
  | a :: as, b :: bs => a == b && subAt as bs

/-- `String.prototype.includes`: whether `pat` occurs anywhere in `s`. -/
def hasSub (pat : List Char) : List Char → Bool
  | [] => subAt pat []
  | c :: cs => subAt pat (c :: cs) || hasSub pat cs

/-- The timeout test of `makeRequest`'s catch block:
`error.code === 'ECONNABORTED' || error.message.includes('timeout')`. -/
def hasTimeout (e : AxiosErr) : Bool :=
  (e.code == some ("ECONNABORTED")) || hasSub ("timeout".data) e.message

/-- JavaScript `a || b` on a possibly-undefined number (`statusCode || 500`):
`b` when `a` is undefined or the falsy 0. -/
def jsOrNum (a : Option Nat) (b : Nat) : Nat :=
  match a with
  | some n => if n = 0 then b else n
  | none => b

/-- The error transformation of `OpenDotaClient.makeRequest` (catch block,
src/opendota-client.ts): a connection abort or a message mentioning
`timeout` becomes a `TimeoutError`; every other failure becomes an
`APIError` with status `error.response?.status || 500` and details carrying
`error.code`, the raw upstream body `error.response?.data`, and the
original error. -/
def classifyRequestError (timeoutMs : Nat) (e : AxiosErr) : MCPErr :=
  if hasTimeout e then
    mkTimeoutErr (("OpenDota API request timed out after ".data) ++
        (toString timeoutMs).data ++ ("ms".data))
      (some (.timeoutDetail e))
  else
    mkAPIErr (("OpenDota API request failed: ".data) ++ e.message)
      (jsOrNum (e.response.map AxiosResp.status) 500)
      (some (.apiDetail e.code (e.response.map AxiosResp.data) e))

/-- `makeRequest` seen at the level of its outcome: a successful axios GET
returns the parsed body unchanged; a failed one throws the classified
error. -/
def makeRequestResult (timeoutMs : Nat) (outcome : Except AxiosErr JVal) :
    Except MCPErr JVal :=
  match outcome with
  | .ok v => .ok v
  | .error e => .error (classifyRequestError timeoutMs e)

/-! ### The `params` object threading of `makeRequest` (frame effect) -/

/-- A JavaScript object used as axios query parameters, as an ordered
field list. -/
abbrev ParamsObj := List (String × JVal)

/-- JavaScript property assignment `o[k] = v`: overwrite the existing field
or append a new one. -/
def setField : ParamsObj → String → JVal → ParamsObj
  | [], k, v => [(k, v)]
  | (k', v') :: rest, k, v =>
    if k' == k then (k, v) :: rest else (k', v') :: setField rest k v

/-- JavaScript property read `o[k]`. -/
def getField : ParamsObj → String → Option JVal
  | [], _ => none
  | (k', v') :: rest, k => if k' == k then some v' else getField rest k

/-- The `params` handling at the top of `makeRequest`
(`if (this.apiKey) { params.api_key = this.apiKey; }`), with the in-place
mutation made explicit: the returned object is the state of the caller's
`params` object after the call. -/
def makeRequestParams (apiKey : Option (List Char)) (params : ParamsObj) : ParamsObj :=
  match apiKey with
  | some key => setField params ("api_key") (.str key)
  | none => params

/-- `getPlayerMatches(accountId, options)` forwards its `options` argument
as the `params` object of `makeRequest`; this is the state of the caller's
`options` object after the call returns. -/
def getPlayerMatchesOptionsAfter (apiKey : Option (List Char)) (options : ParamsObj) : ParamsObj :=
  makeRequestParams apiKey options

/-! ### The tool registry / request router (src/index.ts
`CallToolRequestSchema` handler) -/

/-- One invocation of an `OpenDotaClient` method, with the arguments it was
given. -/
inductive ClientCall where
  | getMatch (id : Int)
  | getPlayer (a : Int)
  | getPlayerMatches (a : Int) (lim : Int) (heroId : Option Int)
  | getPlayerRecentMatches (a : Int)
  | getPlayerHeroes (a : Int)
  | searchPlayers (q : List Char)
  | getHeroes
  | getProMatches
deriving DecidableEq

/-- The outcome of each client method, as an oracle: `makeRequest` either
returns the upstream body or throws a classified `MCPErr`. -/
abbrev Upstream := ClientCall → Except MCPErr JVal

/-- The values thrown inside the handler's `try` block: a zod schema
violation (with the offending field names), a thrown `MCPError` (the
client's `TimeoutError`/`APIError`), a plain `Error`, or a non-`Error`
value with its string representation. -/
inductive Thrown where
  | zod (issues : List String)
  | mcp (e : MCPErr)
  | js (msg : List Char)
  | nonError (srep : List Char)
deriving DecidableEq

/-- The argument object of a tool invocation: the fields any of the nine
tool schemas mention, each possibly absent. -/
structure ToolArgs where
  match_id : Option JVal
  account_id : Option JVal
  limit : Option JVal
  hero_id : Option JVal
  query : Option JVal
deriving DecidableEq

/-- `z.number()` on a required field: the field must be present and a
number, otherwise a `ZodError` is thrown naming the field. -/
def zNum (v : Option JVal) (field : String) : Except Thrown Int :=
  match v with
  | some (.num n) => .ok n
  | _ => .error (.zod [field])

/-- `z.number().optional()`. -/
def zNumOpt (v : Option JVal) (field : String) : Except Thrown (Option Int) :=
  match v with
  | none => .ok none
  | some (.num n) => .ok (some n)
  | some _ => .error (.zod [field])

/-- `z.string()` on a required field. -/
def zStr (v : Option JVal) (field : String) : Except Thrown (List Char) :=
  match v with
  | some (.str s) => .ok s
  | _ => .error (.zod [field])

/-- `GetMatchSchema.parse`: `{ match_id: z.number() }`. -/
def parseGetMatchSchema (args : ToolArgs) : Except Thrown Int :=
  zNum args.match_id ("match_id")

/-- `GetPlayerSchema.parse`: `{ account_id: z.number() }`. -/
def parseGetPlayerSchema (args : ToolArgs) : Except Thrown Int :=
  zNum args.account_id ("account_id")

/-- `GetPlayerMatchesSchema.parse`: `{ account_id: z.number(),
limit: z.number().optional(), hero_id: z.number().optional() }`. -/
def parseGetPlayerMatchesSchema (args : ToolArgs) : Except Thrown (Int × Option Int × Option Int) := do
  let a ← zNum args.account_id ("account_id")
  let lim ← zNumOpt args.limit ("limit")
  let h ← zNumOpt args.hero_id ("hero_id")
  .ok (a, lim, h)

/-- `SearchPlayersSchema.parse`: `{ query: z.string() }`. -/
def parseSearchPlayersSchema (args : ToolArgs) : Except Thrown (List Char) :=
  zStr args.query ("query")

/-- `NaturalQuerySchema.parse`: `{ query: z.string() }`. -/
def parseNaturalQuerySchema (args : ToolArgs) : Except Thrown (List Char) :=
  zStr args.query ("query")

/-- A serialization of upstream bodies standing in for
`JSON.stringify(v, null, 2)`; its exact layout is not observed by any
property here. Braces are written via their code points. -/
def stringifyJ : JVal → List Char
  | .num n => (toString n).data
  | .str s => Char.ofNat 34 :: (s ++ [Char.ofNat 34])
  | .boolean true => ("true".data)
  | .boolean false => ("false".data)
  | .null => ("null".data)
  | .objNil => [Char.ofNat 123, Char.ofNat 125]
  | .objCons k v rest =>
    Char.ofNat 123 :: (k.data ++ (':' :: (stringifyJ v ++ (',' :: stringifyJ rest))))

/-- A rendering of a `details` payload standing in for
`JSON.stringify(mcpError.details, null, 2)`; only its presence or absence
in the error envelope is observed by the properties here. -/
def stringifyDetails : ErrDetails → List Char
  | .zodIssues issues => ("zodError: ".data) ++ (String.intercalate (", ") issues).data
  | .apiDetail code resp _ =>
    ("code: ".data) ++
    (match code with
     | some c => c.data
     | none => ("undefined".data)) ++
    ("; response: ".data) ++
    (match resp with
     | some v => stringifyJ v
     | none => ("undefined".data))
  | .timeoutDetail e => ("originalError: ".data) ++ e.message
  | .wrappedJs m => ("originalError: ".data) ++ m
  | .wrappedOther s => ("originalError: ".data) ++ s

/-- A tool response envelope: one text content block and the `isError`
flag (absent in the source on success, which is the same as `false`). -/
structure ToolResponse where
  text : List Char
  isError : Bool
deriving DecidableEq

/-- The error-normalization of the handler's catch block: a `z.ZodError`
becomes a `ValidationError('Invalid tool arguments', ...)`; an `MCPError`
passes through; any other `Error` is wrapped with code
`TOOL_EXECUTION_ERROR` and status 500; a non-`Error` value is wrapped with
code `UNKNOWN_ERROR` and status 500. -/
def normalizeError : Thrown → MCPErr
  | .zod issues => mkValidationErr ("Invalid tool arguments".data) (some (.zodIssues issues))
  | .mcp e => e
  | .js msg => mkMCPErr msg ("TOOL_EXECUTION_ERROR") 500 (some (.wrappedJs msg))
  | .nonError srep => mkMCPErr srep ("UNKNOWN_ERROR") 500 (some (.wrappedOther srep))

/-- The environment-gated details part of the error envelope text:
`process.env.NODE_ENV === 'development' && mcpError.details ? ... : ''`. -/
def detailsSuffix (e : MCPErr) (isDev : Bool) : List Char :=
  match e.details with
  | some d => if isDev then ("\n\nDetails: ".data) ++ stringifyDetails d else []
  | none => []

/-- The catch block's returned envelope and the `MCPError` it logs:
`Error: ` followed by the message, with the details payload appended only
in a development configuration. -/
def catchBlock (t : Thrown) (isDev : Bool) : ToolResponse × MCPErr :=
  (⟨("Error: ".data) ++ (normalizeError t).message ++ detailsSuffix (normalizeError t) isDev,
    true⟩,
   normalizeError t)

/-- Run one client method and wrap its outcome: an upstream failure is the
thrown `MCPError`; a success is a text response rendered by `render`.
Either way the call was made. -/
def callClient (up : Upstream) (c : ClientCall) (render : JVal → List Char) :
    Except Thrown ToolResponse × List ClientCall :=
  match up c with
  | .error e => (.error (.mcp e), [c])
  | .ok v => (.ok ⟨render v, false⟩, [c])

/-- The fallback text of the `natural_query` tool's default branch. The
apostrophe of the source text is written via its code point 39. -/
def fallbackText (q : List Char) : List Char :=
  ("I couldn".data) ++ [Char.ofNat 39] ++ ("t understand your query: \"".data) ++ q ++
  ("\". Please try asking about specific matches, players, or use one of the available tools.".data)

/-- The inner switch of the `natural_query` case: the dispatch result
selects one of five client methods, each response text prefixed with a
human-readable label; the fallback `search` type produces the explanatory
text without any client call. The wildcard line covers tag/params
combinations `parseNaturalQuery` never constructs. -/
def runNaturalQuery (up : Upstream) (q : List Char) :
    Except Thrown ToolResponse × List ClientCall :=
  match parseNaturalQuery q with
  | ⟨"get_match", .matchId m⟩ =>
    callClient up (.getMatch (Int.ofNat m))
      (fun v => ("Match ".data) ++ (toString m).data ++ (" information:\n\n".data) ++ stringifyJ v)
  | ⟨"get_player", .accountId a⟩ =>
    callClient up (.getPlayer (Int.ofNat a))
      (fun v => ("Player ".data) ++ (toString a).data ++ (" information:\n\n".data) ++ stringifyJ v)
  | ⟨"search_players", .queryStr s⟩ =>
    callClient up (.searchPlayers s)
      (fun v => ("Search results for \"".data) ++ s ++ ("\":\n\n".data) ++ stringifyJ v)
  | ⟨"get_player_recent_matches", .accountId a⟩ =>
    callClient up (.getPlayerRecentMatches (Int.ofNat a))
      (fun v => ("Recent matches for player ".data) ++ (toString a).data ++ (":\n\n".data) ++
        stringifyJ v)
  | ⟨"get_player_heroes", .accountId a⟩ =>
    callClient up (.getPlayerHeroes (Int.ofNat a))
      (fun v => ("Hero statistics for player ".data) ++ (toString a).data ++ (":\n\n".data) ++
        stringifyJ v)
  | ⟨_, _⟩ => (.ok ⟨fallbackText q, false⟩, [])

/-- The `try` block of the `CallToolRequestSchema` handler: switch on the
tool name, validate arguments against the tool's schema, call the matching
client method, and serialize the result; an unknown tool name throws
`Error('Unknown tool: ...')`. Returns the body outcome together with the
client calls that were made. -/
def toolBody (name : String) (args : ToolArgs) (up : Upstream) :
    Except Thrown ToolResponse × List ClientCall :=
  if name = "get_match" then
    match parseGetMatchSchema args with
    | .error t => (.error t, [])
    | .ok mid => callClient up (.getMatch mid) stringifyJ
  else if name = "get_player" then
    match parseGetPlayerSchema args with
    | .error t => (.error t, [])
    | .ok a => callClient up (.getPlayer a) stringifyJ
  else if name = "get_player_matches" then
    match parseGetPlayerMatchesSchema args with
    | .error t => (.error t, [])
    | .ok (a, lim, h) => callClient up (.getPlayerMatches a (lim.getD 20) h) stringifyJ
  else if name = "get_player_recent_matches" then
    match parseGetPlayerSchema args with
    | .error t => (.error t, [])
    | .ok a => callClient up (.getPlayerRecentMatches a) stringifyJ
  else if name = "get_player_heroes" then
    match parseGetPlayerSchema args with
    | .error t => (.error t, [])
    | .ok a => callClient up (.getPlayerHeroes a) stringifyJ
  else if name = "search_players" then
    match parseSearchPlayersSchema args with
    | .error t => (.error t, [])
    | .ok q => callClient up (.searchPlayers q) stringifyJ
  else if name = "get_heroes" then
    callClient up .getHeroes stringifyJ
  else if name = "get_pro_matches" then
    callClient up .getProMatches stringifyJ
  else if name = "natural_query" then
    match parseNaturalQuerySchema args with
    | .error t => (.error t, [])
    | .ok q => runNaturalQuery up q
  else
    (.error (.js (("Unknown tool: ".data) ++ name.data)), [])

/-- What one handler invocation produces: the response envelope sent back,
the client calls that were made, and the `MCPError` handed to the failure
log when the catch block ran. -/
structure ToolOutcome where
  response : ToolResponse
  calls : List ClientCall
  loggedError : Option MCPErr
deriving DecidableEq

/-- One full handler invocation: run the `try` body and, when it threw,
normalize the error in the catch block; a caller always receives a
response envelope. -/
def runTool (name : String) (args : ToolArgs) (up : Upstream) (isDev : Bool) : ToolOutcome :=
  match toolBody name args up with
  | (.ok r, calls) => ⟨r, calls, none⟩
  | (.error t, calls) => ⟨(catchBlock t isDev).1, calls, some (catchBlock t isDev).2⟩

/-! ### Shared concrete inputs for witnesses -/

/-- An empty argument object `{}` (every field absent). -/
def emptyArgs : ToolArgs := ⟨none, none, none, none, none⟩

/-- A trivial upstream oracle: every call succeeds with `null`. -/
def upNull : Upstream := fun _ => .ok (.null)

/-- The argument object `{ query: q }` of a `natural_query` invocation. -/
def queryArgs (q : List Char) : ToolArgs := ⟨none, none, none, none, some (.str q)⟩

/-! ### Claim theorems -/

/-- Claim C1 (code evaluated at the failing input): dispatching
`recent matches for player 123` through `parseNaturalQuery` yields
`get_player` with account id 123 — not `get_player_recent_matches` —
because `playerIdPattern` is tried before `recentMatchesPattern` and
already matches the substring `player 123`. -/
theorem recent_matches_phrase_hits_player_id :
    parseNaturalQuery ("recent matches for player 123".data) =
      ⟨"get_player", .accountId 123⟩ := by decide

/-- Claim C2 (code evaluated at the failing inputs): dispatching
`heroes for player 123` and `player 123 heroes` through
`parseNaturalQuery` both yield `get_player` with account id 123 — not
`get_player_heroes` — because `playerIdPattern` is tried before
`playerHeroesPattern` and already matches the substring `player 123`. -/
theorem heroes_phrases_hit_player_id :
    parseNaturalQuery ("heroes for player 123".data) = ⟨"get_player", .accountId 123⟩ ∧
    parseNaturalQuery ("player 123 heroes".data) = ⟨"get_player", .accountId 123⟩ :=
  ⟨by decide, by decide⟩

/-- Claim C8: dispatching the text `find player named "Foo"` yields
`search_players` with query exactly `Foo`, the quoted substring with
nothing removed but the quotes. -/
theorem quoted_player_name_searched :
    parseNaturalQuery ("find player named \"Foo\"".data) =
      ⟨"search_players", .queryStr ("Foo".data)⟩ := by decide

/-- Claim C6: whenever both the match-id pattern and the bare player-id
pattern match an input, `parseNaturalQuery` returns `get_match` with the
integer captured by the match-id pattern, because that check runs first in
the fixed priority order. -/
theorem match_pattern_priority (q : List Char) (g1 g2 : Groups)
    (h1 : execRE matchIdPattern q = some g1)
    (_h2 : execRE playerIdPattern q = some g2) :
    parseNaturalQuery q = ⟨"get_match", .matchId (digitsToNat ((glookup g1 1).getD []))⟩ := by
  unfold parseNaturalQuery
  rw [h1]

/-- Witness for C6 at the spec's example `match 5 player 9`: both patterns
match, and the result is `get_match` with the match-pattern's capture 5. -/
theorem match_pattern_priority_witness :
    parseNaturalQuery ("match 5 player 9".data) =
      ⟨"get_match", .matchId (digitsToNat ((glookup [(1, ("5".data))] 1).getD []))⟩ :=
  match_pattern_priority ("match 5 player 9".data) [(1, ("5".data))] [(1, ("9".data))]
    (by decide) (by decide)

/-- Claim C9: `parseNaturalQuery` is a total function (it is a Lean
function, so it returns exactly one result for every input), its `type`
tag is always one of the six produced values, and the tags `get_heroes`
and `get_pro_matches` are never produced. -/
theorem parse_is_total_with_six_tags (q : List Char) :
    ((parseNaturalQuery q).type = "get_match" ∨ (parseNaturalQuery q).type = "search_players" ∨
     (parseNaturalQuery q).type = "get_player" ∨
     (parseNaturalQuery q).type = "get_player_recent_matches" ∨
     (parseNaturalQuery q).type = "get_player_heroes" ∨ (parseNaturalQuery q).type = "search") ∧
    (parseNaturalQuery q).type ≠ "get_heroes" ∧
    (parseNaturalQuery q).type ≠ "get_pro_matches" := by
  unfold parseNaturalQuery
  cases execRE matchIdPattern q with
  | some g => simp
  | none =>
  cases execRE playerNamePattern q with
  | some g => simp
  | none =>
  cases execRE playerIdPattern q with
  | some g => simp
  | none =>
  cases execRE recentMatchesPattern q with
  | some g => simp
  | none =>
  cases execRE playerHeroesPattern q with
  | some g => simp
  | none => simp

/-- Claim C4: every failure of `makeRequest` throws the classified error:
a connection abort or a message mentioning `timeout` becomes a
`TimeoutError`; every other failure becomes an `APIError` that carries the
upstream HTTP status when one is available (500 otherwise) and the raw
upstream error body in its details. -/
theorem makeRequest_error_classified (tms : Nat) (e : AxiosErr) :
    makeRequestResult tms (.error e) = .error (classifyRequestError tms e) ∧
    (hasTimeout e = true →
      (classifyRequestError tms e).name = "TimeoutError" ∧
      (classifyRequestError tms e).code = "TIMEOUT_ERROR" ∧
      (classifyRequestError tms e).statusCode = 408) ∧
    (hasTimeout e = false →
      (classifyRequestError tms e).name = "APIError" ∧
      (classifyRequestError tms e).code = "API_ERROR" ∧
      (∀ r, e.response = some r → r.status ≠ 0 →
        (classifyRequestError tms e).statusCode = r.status) ∧
      (e.response = none → (classifyRequestError tms e).statusCode = 500) ∧
      (classifyRequestError tms e).details =
        some (.apiDetail e.code (e.response.map AxiosResp.data) e)) := by
  refine ⟨rfl, fun h => ?_, fun h => ?_⟩
  · simp [classifyRequestError, h, mkTimeoutErr]
  · refine ⟨?_, ?_, ?_, ?_, ?_⟩
    · simp [classifyRequestError, h, mkAPIErr]
    · simp [classifyRequestError, h, mkAPIErr]
    · intro r hr hs
      simp [classifyRequestError, h, mkAPIErr, hr, jsOrNum, hs]
    · intro hr
      simp [classifyRequestError, h, mkAPIErr, hr, jsOrNum]
    · simp [classifyRequestError, h, mkAPIErr]

/-- A timing-out axios failure: connection-abort code, no response. -/
def errTimeout : AxiosErr :=
  ⟨some ("ECONNABORTED"), ("timeout of 30000ms exceeded".data), none⟩

/-- A 404 axios failure with body `{error: "not found"}`. -/
def err404 : AxiosErr :=
  ⟨some ("ERR_BAD_REQUEST"), ("Request failed with status code 404".data),
   some ⟨404, .objCons ("error") (.str ("not found".data)) .objNil⟩⟩

/-- Witness for C4: the connection-abort failure classifies as a
`TimeoutError`; the 404 failure classifies as an `APIError` with status
404 whose details carry the upstream body. -/
theorem makeRequest_error_classified_witness :
    (classifyRequestError 30000 errTimeout).code = "TIMEOUT_ERROR" ∧
    (classifyRequestError 30000 err404).statusCode = 404 ∧
    (classifyRequestError 30000 err404).details =
      some (.apiDetail (some ("ERR_BAD_REQUEST"))
        (some (.objCons ("error") (.str ("not found".data)) .objNil)) err404) := by
  refine ⟨((makeRequest_error_classified 30000 errTimeout).2.1 (by decide)).2.1, ?_, ?_⟩
  · exact ((makeRequest_error_classified 30000 err404).2.2 (by decide)).2.2.1
      ⟨404, .objCons ("error") (.str ("not found".data)) .objNil⟩ rfl (by decide)
  · exact ((makeRequest_error_classified 30000 err404).2.2 (by decide)).2.2.2.2

/-- JavaScript property assignment followed by a read of the same key
yields the assigned value. -/
theorem getField_setField (o : ParamsObj) (k : String) (v : JVal) :
    getField (setField o k v) k = some v := by
  induction o with
  | nil => simp [setField, getField]
  | cons p rest ih =>
    obtain ⟨k', v'⟩ := p
    cases hk : (k' == k) with
    | false => simpa [setField, getField, hk] using ih
    | true => simp [setField, getField, hk]

/-- Claim C10: when an API key is configured, `makeRequest` writes the
`api_key` field into the `params` object supplied by its caller, so the
`options` object a caller passed to `getPlayerMatches` contains an
`api_key` entry after the call and is not left unchanged. -/
theorem makeRequest_mutates_caller_params (key : List Char) (opts : ParamsObj)
    (h : getField opts ("api_key") = none) :
    getField (getPlayerMatchesOptionsAfter (some key) opts) "api_key" = some (.str key) ∧
    getPlayerMatchesOptionsAfter (some key) opts ≠ opts := by
  have h1 : getField (getPlayerMatchesOptionsAfter (some key) opts) "api_key" =
      some (.str key) := by
    unfold getPlayerMatchesOptionsAfter makeRequestParams
    exact getField_setField opts ("api_key") (.str key)
  refine ⟨h1, fun heq => ?_⟩
  rw [heq, h] at h1
  exact Option.noConfusion h1

/-- Witness for C10 at a concrete key and a `{limit: 20}` options object:
the object afterwards holds the `api_key` entry and differs from the
original. -/
theorem makeRequest_mutates_caller_params_witness :
    getField (getPlayerMatchesOptionsAfter (some ("k".data)) [("limit", .num 20)]) "api_key" =
      some (.str ("k".data)) ∧
    getPlayerMatchesOptionsAfter (some ("k".data)) [("limit", .num 20)] ≠
      [("limit", .num 20)] :=
  makeRequest_mutates_caller_params ("k".data) [("limit", .num 20)] (by decide)

/-- Claim C3: invoking tool `get_match` with an argument object lacking
`match_id` makes no client call (hence no upstream request), returns a
failed envelope, and the error logged for the invocation is the
`ValidationError` (HTTP-equivalent status 400) built by the catch block. -/
theorem get_match_missing_id_rejected (args : ToolArgs) (up : Upstream) (isDev : Bool)
    (h : args.match_id = none) :
    (runTool ("get_match") args up isDev).calls = [] ∧
    (runTool ("get_match") args up isDev).response.isError = true ∧
    (runTool ("get_match") args up isDev).loggedError =
      some (mkValidationErr ("Invalid tool arguments".data) (some (.zodIssues ["match_id"]))) ∧
    ((runTool ("get_match") args up isDev).loggedError.map MCPErr.statusCode) = some 400 := by
  have hb : toolBody ("get_match") args up = (.error (.zod ["match_id"]), []) := by
    simp [toolBody, parseGetMatchSchema, zNum, h]
  simp [runTool, hb, catchBlock, normalizeError, mkValidationErr]

/-- Witness for C3: the empty argument object `{}` against a trivial
upstream oracle. -/
theorem get_match_missing_id_rejected_witness :
    (runTool ("get_match") emptyArgs upNull false).calls = [] ∧
    (runTool ("get_match") emptyArgs upNull false).response.isError = true ∧
    (runTool ("get_match") emptyArgs upNull false).loggedError =
      some (mkValidationErr ("Invalid tool arguments".data) (some (.zodIssues ["match_id"]))) ∧
    ((runTool ("get_match") emptyArgs upNull false).loggedError.map MCPErr.statusCode) =
      some 400 :=
  get_match_missing_id_rejected emptyArgs upNull false rfl

/-- Claim C5: an input matched by none of the five dispatch patterns is
parsed to the fallback `search` operation carrying the original string
verbatim, and the `natural_query` tool then answers with the plain
explanatory text — no client call is made and no error is raised. -/
theorem unmatched_query_falls_back (q : List Char) (up : Upstream) (isDev : Bool)
    (h1 : execRE matchIdPattern q = none) (h2 : execRE playerNamePattern q = none)
    (h3 : execRE playerIdPattern q = none) (h4 : execRE recentMatchesPattern q = none)
    (h5 : execRE playerHeroesPattern q = none) :
    parseNaturalQuery q = ⟨"search", .queryStr q⟩ ∧
    (runTool ("natural_query") (queryArgs q) up isDev).calls = [] ∧
    (runTool ("natural_query") (queryArgs q) up isDev).response = ⟨fallbackText q, false⟩ ∧
    (runTool ("natural_query") (queryArgs q) up isDev).loggedError = none := by
  have hp : parseNaturalQuery q = ⟨"search", .queryStr q⟩ := by
    unfold parseNaturalQuery
    rw [h1, h2, h3, h4, h5]
  have hb : toolBody ("natural_query") (queryArgs q) up = (.ok ⟨fallbackText q, false⟩, []) := by
    simp [toolBody, parseNaturalQuerySchema, zStr, queryArgs, runNaturalQuery, hp]
  exact ⟨hp, by simp [runTool, hb], by simp [runTool, hb], by simp [runTool, hb]⟩

/-- Witness for C5 at the spec's example `what is the meaning of life`,
which no pattern matches. -/
theorem unmatched_query_falls_back_witness :
    parseNaturalQuery ("what is the meaning of life".data) =
      ⟨"search", .queryStr ("what is the meaning of life".data)⟩ ∧
    (runTool ("natural_query") (queryArgs ("what is the meaning of life".data))
        upNull false).calls = [] ∧
    (runTool ("natural_query") (queryArgs ("what is the meaning of life".data))
        upNull false).response = ⟨fallbackText ("what is the meaning of life".data), false⟩ ∧
    (runTool ("natural_query") (queryArgs ("what is the meaning of life".data))
        upNull false).loggedError = none :=
  unmatched_query_falls_back ("what is the meaning of life".data) upNull false
    (by decide) (by decide) (by decide) (by decide) (by decide)

/-- Claim C7: whenever the handler body throws — a schema violation, a
client `TimeoutError`/`APIError`, a plain `Error`, or a non-`Error` value —
the catch block returns a well-formed envelope flagged as an error whose
text is `Error: ` followed by the normalized error's message, with the
details payload appended only under a development configuration (with
`isDev = false` the appended suffix is always empty). -/
theorem handler_catches_all_thrown (name : String) (args : ToolArgs) (up : Upstream)
    (isDev : Bool) (t : Thrown) (h : (toolBody name args up).1 = .error t) :
    (runTool name args up isDev).response.isError = true ∧
    (runTool name args up isDev).response.text =
      ("Error: ".data) ++ (normalizeError t).message ++
        detailsSuffix (normalizeError t) isDev ∧
    (runTool name args up isDev).loggedError = some (normalizeError t) ∧
    (∀ e : MCPErr, detailsSuffix e false = []) := by
  rcases hb : toolBody name args up with ⟨b, calls⟩
  rw [hb] at h
  simp only at h
  subst h
  refine ⟨?_, ?_, ?_, fun e => ?_⟩
  · simp [runTool, hb, catchBlock]
  · simp [runTool, hb, catchBlock]
  · simp [runTool, hb, catchBlock]
  · cases hd : e.details with
    | none => simp [detailsSuffix, hd]
    | some d => simp [detailsSuffix, hd]

/-- Witness for C7: the `get_match` invocation with empty arguments throws
a zod error, and the catch block produces the envelope as stated. -/
theorem handler_catches_all_thrown_witness :
    (runTool ("get_match") emptyArgs upNull true).response.isError = true ∧
    (runTool ("get_match") emptyArgs upNull true).response.text =
      ("Error: ".data) ++ (normalizeError (.zod ["match_id"])).message ++
        detailsSuffix (normalizeError (.zod ["match_id"])) true ∧
    (runTool ("get_match") emptyArgs upNull true).loggedError =
      some (normalizeError (.zod ["match_id"])) ∧
    (∀ e : MCPErr, detailsSuffix e false = []) :=
  handler_catches_all_thrown ("get_match") emptyArgs upNull true (.zod ["match_id"]) (by rfl)
